import Mathlib

/-!
# Verification of the agent performance-metrics recorder

Shallow embedding of `src/hooks/agent-performance-monitor.py` and the
short-output guard of `src/hooks/agent-result-validator.py`.

Modelling conventions:
* Python `dict`s (insertion-ordered, string-keyed) are association lists
  `List (String × α)`; assignment updates in place or appends a new key.
* ISO-8601 timestamp strings produced by `datetime.now().isoformat()` are
  modelled by their time value as an integer number of seconds; comparison of
  `datetime.fromisoformat` results corresponds to comparison of these values.
  The calendar-day string `datetime.now().strftime("%Y-%m-%d")` is passed
  alongside the instant as a separate `today` argument.
* Python exceptions are `Except Unit`; a raised exception is `.error ()`.
* `set()` versus `list` values for the `agents_used` field are tracked by the
  inductive `AgentsUsed`, because the source stores both at different times.
-/

deriving instance DecidableEq for Except

/-- One entry of an agent's `recent_calls` list. -/
structure CallRecord where
  timestamp : ℤ
  task : String
  complexity : ℕ
  deriving DecidableEq, Repr

/-- The per-agent statistics record initialised at lines 41-45 of the source. -/
structure AgentStats where
  total_calls : ℕ
  recent_calls : List CallRecord
  avg_complexity : ℚ
  deriving DecidableEq, Repr

/-- The dynamic type of the `agents_used` field: the source initialises it as a
Python `set()` (line 51) but later reassigns a `list` (line 74), so both occur. -/
inductive AgentsUsed where
  | pySet (xs : List String)
  | pyList (xs : List String)
  deriving DecidableEq, Repr

/-- The per-day statistics record initialised at lines 49-53 of the source. -/
structure DailyStats where
  total_calls : ℕ
  agents_used : AgentsUsed
  parallel_sessions : ℕ
  deriving DecidableEq, Repr

/-- The whole metrics store persisted in `~/.claude/agent-metrics.json`. -/
structure MetricsStore where
  agents : List (String × AgentStats)
  daily_stats : List (String × DailyStats)
  last_cleanup : ℤ
  deriving DecidableEq, Repr

/-- Python dict lookup `d[k]` / `d.get(k)`: first binding of the key. -/
def dictGet {α : Type} : List (String × α) → String → Option α
  | [], _ => none
  | (k', v) :: rest, k => if k' = k then some v else dictGet rest k

/-- Python dict assignment `d[k] = v`: replace in place, or append a new key. -/
def dictSet {α : Type} : List (String × α) → String → α → List (String × α)
  | [], k, v => [(k, v)]
  | (k', v') :: rest, k, v =>
    if k' = k then (k, v) :: rest else (k', v') :: dictSet rest k v

/-- Python `str.lower()`, character by character (ASCII case mapping; the
keywords of interest are all ASCII). -/
def pyLower (s : String) : String :=
  String.mk (s.toList.map Char.toLower)

/-- Accumulator-passing tokenizer behind `pySplit`. -/
def pySplitAux : List Char → List Char → List String
  | [], [] => []
  | [], acc => [String.mk acc.reverse]
  | c :: rest, acc =>
    if c.isWhitespace then
      match acc with
      | [] => pySplitAux rest []
      | _ => String.mk acc.reverse :: pySplitAux rest []
    else pySplitAux rest (c :: acc)

/-- Python `str.split()` with no separator: split on whitespace runs,
discarding empty pieces. -/
def pySplit (s : String) : List String :=
  pySplitAux s.toList []

/-- The `complexity_keywords` dict literal of `estimate_task_complexity`
(lines 86-92 of the source). -/
def complexity_keywords_table : List (String × ℕ) :=
  [("implement", 3), ("create", 3), ("build", 4), ("design", 4),
   ("refactor", 3), ("migrate", 4), ("integrate", 4),
   ("fix", 2), ("update", 2), ("modify", 2),
   ("analyze", 2), ("review", 2), ("document", 2),
   ("test", 2), ("debug", 3), ("optimize", 3)]

/-- The lookup `complexity_keywords[word]` guarded by
`word in complexity_keywords`. -/
def complexity_keywords (w : String) : Option ℕ :=
  dictGet complexity_keywords_table w

/-- The body of the `for word in words` loop of `estimate_task_complexity`:
`base_complexity = max(base_complexity, complexity_keywords[word])` when the
word is in the table. -/
def kwStep (b : ℕ) (w : String) : ℕ :=
  match complexity_keywords w with
  | some k => max b k
  | none => b

/-- `estimate_task_complexity` (lines 84-105 of the source): start from base
complexity 1, take the max over keyword weights of the lower-cased
whitespace tokens, add 1 when the raw text is longer than 200 characters,
and cap the result at 5. -/
def estimate_task_complexity (task_description : String) : ℕ :=
  let words := pySplit (pyLower task_description)
  let base_complexity := words.foldl kwStep 1
  let base_complexity :=
    if task_description.length > 200 then base_complexity + 1 else base_complexity
  min base_complexity 5

/-- The fresh store built by `load_metrics` when the file is missing,
unreadable or unparseable (lines 19-23 of the source). -/
def fresh_store (now : ℤ) : MetricsStore :=
  { agents := [], daily_stats := [], last_cleanup := now }

/-- Zeroed agent defaults (lines 41-45 of the source). -/
def initAgentStats : AgentStats :=
  { total_calls := 0, recent_calls := [], avg_complexity := 0 }

/-- Zeroed daily defaults (lines 49-53 of the source); note `agents_used`
starts as a Python `set()`. -/
def initDailyStats : DailyStats :=
  { total_calls := 0, agents_used := .pySet [], parallel_sessions := 0 }

/-- Python `list(set(xs))`: deduplication.  The iteration order of a Python
set is unspecified, so any fixed order is a faithful model; nothing in the
source ever depends on the order of `agents_used`. -/
def pySetToList (xs : List String) : List String :=
  xs.dedup

/-- The body of `record_agent_invocation` (lines 34-82 of the source) after
the store has been loaded, with the instant `now` and the day string `today`
(both taken from `datetime.now()` in the source) passed explicitly.
`.error ()` models a `TypeError` escaping the function: the source initialises
`agents_used` as `set()` and then evaluates
`daily.get("agents_used", []) + [agent_name]`, and a Python `set` does not
support `+` with a `list`. Timestamps are in seconds, so the 24-hour cutoff
is `now - 24 * 3600`. -/
def record_core (metrics : MetricsStore) (now : ℤ) (today : String)
    (agent_name task_description : String) : Except Unit MetricsStore :=
  -- Initialize agent stats
  let metrics :=
    if (dictGet metrics.agents agent_name).isNone then
      { metrics with agents := dictSet metrics.agents agent_name initAgentStats }
    else metrics
  -- Initialize daily stats
  let metrics :=
    if (dictGet metrics.daily_stats today).isNone then
      { metrics with daily_stats := dictSet metrics.daily_stats today initDailyStats }
    else metrics
  -- Record invocation
  let agent_stats := (dictGet metrics.agents agent_name).getD initAgentStats
  let agent_stats :=
    { agent_stats with
        total_calls := agent_stats.total_calls + 1,
        recent_calls := agent_stats.recent_calls ++
          [({ timestamp := now,
              task := task_description.take 100,
              complexity := estimate_task_complexity task_description } : CallRecord)] }
  -- Keep only recent calls (last 24 hours)
  let cutoff : ℤ := now - 24 * 3600
  let agent_stats :=
    { agent_stats with
        recent_calls := agent_stats.recent_calls.filter (fun c => cutoff < c.timestamp) }
  let metrics := { metrics with agents := dictSet metrics.agents agent_name agent_stats }
  -- Update daily stats
  let daily := (dictGet metrics.daily_stats today).getD initDailyStats
  match daily.agents_used with
  | .pySet _ => .error ()   -- TypeError: unsupported operand types for +: set and list
  | .pyList xs =>
    let daily :=
      { daily with
          total_calls := daily.total_calls + 1,
          agents_used := .pyList (pySetToList (xs ++ [agent_name])) }
    let metrics := { metrics with daily_stats := dictSet metrics.daily_stats today daily }
    -- Calculate average complexity
    let agent_stats := (dictGet metrics.agents agent_name).getD initAgentStats
    let agent_stats :=
      if agent_stats.recent_calls ≠ [] then
        { agent_stats with
            avg_complexity :=
              (agent_stats.recent_calls.map (fun c => (c.complexity : ℚ))).sum /
                agent_stats.recent_calls.length }
      else agent_stats
    let metrics := { metrics with agents := dictSet metrics.agents agent_name agent_stats }
    .ok metrics

/-- The agent-stats record `suggest_optimizations` works on:
`metrics["agents"].get(agent_name, {})`, every field read with a zero
default. -/
def agentStatsOf (metrics : MetricsStore) (agent_name : String) : AgentStats :=
  (dictGet metrics.agents agent_name).getD initAgentStats

/-- Truncated task strings of the last five recent calls,
`[call["task"] for call in recent_calls[-5:]]`. -/
def lastFiveTasks (stats : AgentStats) : List String :=
  (stats.recent_calls.drop (stats.recent_calls.length - 5)).map (fun c => c.task)

/-- `suggest_optimizations` (lines 107-125 of the source). -/
def suggest_optimizations (metrics : MetricsStore) (agent_name : String) : List String :=
  let agent_stats := agentStatsOf metrics agent_name
  -- High frequency suggestions
  let s1 :=
    if agent_stats.total_calls > 10 then
      if agent_stats.avg_complexity < 2 then
        ["Consider combining simple tasks to reduce overhead"]
      else []
    else []
  -- Pattern analysis
  let recent_calls := agent_stats.recent_calls
  let s2 :=
    if recent_calls.length > 5 then
      if (lastFiveTasks agent_stats).dedup.length < 3 then
        ["Detected repetitive tasks - consider batch processing"]
      else []
    else []
  s1 ++ s2

/-- JSON documents, as handled by `json.dump` / `json.load`.  Python keeps
`int` and `float` apart through a round trip, so they are separate
constructors; both round-trip exactly. -/
inductive JValue where
  | str (s : String)
  | jint (n : ℤ)
  | num (q : ℚ)
  | arr (xs : List JValue)
  | obj (kvs : List (String × JValue))

/-- Serialization of a call record by `json.dump`. -/
def encodeCall (c : CallRecord) : JValue :=
  .obj [("timestamp", .jint c.timestamp),
        ("task", .str c.task),
        ("complexity", .jint c.complexity)]

/-- Serialization of an agent-stats record by `json.dump`. -/
def encodeAgent (a : AgentStats) : JValue :=
  .obj [("total_calls", .jint a.total_calls),
        ("recent_calls", .arr (a.recent_calls.map encodeCall)),
        ("avg_complexity", .num a.avg_complexity)]

/-- Serialization of a daily-stats record; `json.dump` raises `TypeError`
on a Python `set`, hence `none` in the `pySet` case. -/
def encodeDaily (d : DailyStats) : Option JValue :=
  match d.agents_used with
  | .pySet _ => none
  | .pyList xs =>
    some (.obj [("total_calls", .jint d.total_calls),
                ("agents_used", .arr (xs.map .str)),
                ("parallel_sessions", .jint d.parallel_sessions)])

/-- Serialization of the `daily_stats` dict. -/
def encodeDailyDict : List (String × DailyStats) → Option (List (String × JValue))
  | [] => some []
  | (k, d) :: rest => do
    let j ← encodeDaily d
    let r ← encodeDailyDict rest
    pure ((k, j) :: r)

/-- Whether `json.dump` accepts the store: every `agents_used` value is a
`list`, not a `set`. -/
def serializable (m : MetricsStore) : Bool :=
  m.daily_stats.all (fun kv =>
    match kv.2.agents_used with
    | .pyList _ => true
    | .pySet _ => false)

/-- Serialization of the whole store by `json.dump` (line 30 of the source). -/
def encodeStore (m : MetricsStore) : Option JValue := do
  let ds ← encodeDailyDict m.daily_stats
  pure (.obj [("agents", .obj (m.agents.map (fun kv => (kv.1, encodeAgent kv.2)))),
              ("daily_stats", .obj ds),
              ("last_cleanup", .jint m.last_cleanup)])

/-- Reading a JSON integer as the nonnegative counter it stores. -/
def decNat (j : JValue) : Option ℕ :=
  match j with
  | .jint n => if 0 ≤ n then some n.toNat else none
  | _ => none

/-- Reading a JSON number. -/
def decQ : JValue → Option ℚ
  | .num q => some q
  | _ => none

/-- Reading a JSON integer as the (possibly negative) time value it stores. -/
def decInt : JValue → Option ℤ
  | .jint n => some n
  | _ => none

/-- Reading a JSON string. -/
def decStr : JValue → Option String
  | .str s => some s
  | _ => none

/-- Reading a JSON array. -/
def decArr : JValue → Option (List JValue)
  | .arr xs => some xs
  | _ => none

/-- Field-for-field reading of a loaded call record, by the keys the source
accesses (`call["timestamp"]`, `call["task"]`, `call["complexity"]`). -/
def decodeCall (j : JValue) : Option CallRecord :=
  match j with
  | .obj kvs => do
    let t ← dictGet kvs "timestamp" >>= decInt
    let task ← dictGet kvs "task" >>= decStr
    let c ← dictGet kvs "complexity" >>= decNat
    pure { timestamp := t, task := task, complexity := c }
  | _ => none

/-- Reading a JSON array of call records. -/
def decodeCallList : List JValue → Option (List CallRecord)
  | [] => some []
  | j :: rest => do
    let c ← decodeCall j
    let r ← decodeCallList rest
    pure (c :: r)

/-- Field-for-field reading of a loaded agent-stats record. -/
def decodeAgent (j : JValue) : Option AgentStats :=
  match j with
  | .obj kvs => do
    let t ← dictGet kvs "total_calls" >>= decNat
    let rjs ← dictGet kvs "recent_calls" >>= decArr
    let r ← decodeCallList rjs
    let a ← dictGet kvs "avg_complexity" >>= decQ
    pure { total_calls := t, recent_calls := r, avg_complexity := a }
  | _ => none

/-- Reading a JSON array of strings. -/
def decodeStrList : List JValue → Option (List String)
  | [] => some []
  | j :: rest => do
    let s ← decStr j
    let r ← decodeStrList rest
    pure (s :: r)

/-- Field-for-field reading of a loaded daily-stats record; JSON arrays load
as Python lists, so `agents_used` is always `pyList` after a reload. -/
def decodeDaily (j : JValue) : Option DailyStats :=
  match j with
  | .obj kvs => do
    let t ← dictGet kvs "total_calls" >>= decNat
    let ajs ← dictGet kvs "agents_used" >>= decArr
    let xs ← decodeStrList ajs
    let p ← dictGet kvs "parallel_sessions" >>= decNat
    pure { total_calls := t, agents_used := .pyList xs, parallel_sessions := p }
  | _ => none

/-- Reading a loaded JSON object as a string-keyed dict of decoded values. -/
def decodeDict {α : Type} (f : JValue → Option α) :
    List (String × JValue) → Option (List (String × α))
  | [] => some []
  | (k, j) :: rest => do
    let a ← f j
    let r ← decodeDict f rest
    pure ((k, a) :: r)

/-- Field-for-field reading of the loaded store document.  The source's
`load_metrics` returns the parsed JSON dict directly and all later code
accesses it by these keys; a document that is not store-shaped makes those
accesses raise, which this model folds into `none`. -/
def decodeStore (j : JValue) : Option MetricsStore :=
  match j with
  | .obj kvs =>
    match dictGet kvs "agents", dictGet kvs "daily_stats", dictGet kvs "last_cleanup" with
    | some (.obj akvs), some (.obj dkvs), some lc => do
      let agents ← decodeDict decodeAgent akvs
      let daily ← decodeDict decodeDaily dkvs
      let lcq ← decInt lc
      pure { agents := agents, daily_stats := daily, last_cleanup := lcq }
    | _, _, _ => none
  | _ => none

/-- `load_metrics` (lines 11-23 of the source): the file state is `none` when
the file is missing, unreadable, or not parseable as JSON — every such case
falls into the bare `except` and yields the fresh store stamped with the
current instant. -/
def load_metrics (fs : Option JValue) (now : ℤ) : Option MetricsStore :=
  match fs with
  | none => some (fresh_store now)
  | some j => decodeStore j

/-- `save_metrics` (lines 25-32 of the source): on success the file now holds
the dumped store; a `TypeError` from `json.dump` is caught and logged, the
function returns normally and the previous file state is kept. -/
def save_metrics (fs : Option JValue) (m : MetricsStore) : Option JValue :=
  match encodeStore m with
  | some j => some j
  | none => fs

/-- `record_agent_invocation` at file level: load, run the body, save.
Returns the metrics dict handed back to `main` together with the resulting
file state; `.error ()` is an exception escaping to the caller. -/
def record_agent_invocation (fs : Option JValue) (now : ℤ) (today : String)
    (agent_name task_description : String) : Except Unit (MetricsStore × Option JValue) :=
  match load_metrics fs now with
  | none => .error ()
  | some metrics =>
    match record_core metrics now today agent_name task_description with
    | .error e => .error e
    | .ok m => .ok (m, save_metrics fs m)

/-- The event read from standard input: `tool_name`, and inside `tool_input`
the fields `subagent_type` and `prompt`; every field may be absent. -/
structure HookEvent where
  tool_name : Option String
  subagent_type : Option String
  prompt : Option String

/-- The body of the top-level `try` block (lines 128-146 of the source);
`input = none` models `json.load(sys.stdin)` raising. -/
def run_hook (input : Option HookEvent) (fs : Option JValue) (now : ℤ)
    (today : String) : Except Unit Unit :=
  match input with
  | none => .error ()
  | some data =>
    if data.tool_name.getD "" = "Task" then
      match record_agent_invocation fs now today
          (data.subagent_type.getD "unknown") (data.prompt.getD "") with
      | .error e => .error e
      | .ok (metrics, _) =>
        let _ := suggest_optimizations metrics (data.subagent_type.getD "unknown")
        .ok ()
    else .ok ()

/-- The process exit status: the script either falls off the end of the
`try` block (exit 0) or lands in the `except` handler, which logs and calls
`sys.exit(0)` (lines 148-150 of the source). -/
def main_exit (input : Option HookEvent) (fs : Option JValue) (now : ℤ)
    (today : String) : ℕ :=
  match run_hook input fs now today with
  | .ok _ => 0
  | .error _ => 0

/-!
## Result validator (`src/hooks/agent-result-validator.py`)

Every regular expression in that script is an alternation of string literals
(with `backwards?` expanded to its two spellings and `\.`, `\(`, `\* `
unescaped), searched case-insensitively.  A pattern is therefore modelled as
its source text together with the list of literal alternatives, and
`re.search(p, text, re.IGNORECASE)` as: some alternative occurs as a
substring of `text`, comparing lower-cased. -/

/-- Substring occurrence on character lists: the needle occurs at the head
or somewhere in the tail. -/
def subOccurs (needle : List Char) : List Char → Bool
  | [] => needle.isEmpty
  | c :: rest => needle.isPrefixOf (c :: rest) || subOccurs needle rest

/-- Substring test on strings. -/
def strHasSub (hay needle : String) : Bool :=
  subOccurs needle.toList hay.toList

/-- A Python regex that is an alternation of literal strings. -/
structure RePattern where
  src : String
  alts : List String

/-- `re.search(pattern, text, re.IGNORECASE)` for literal-alternation
patterns. -/
def reSearchCI (p : RePattern) (text : String) : Bool :=
  p.alts.any (fun a => strHasSub (pyLower text) (pyLower a))

/-- `UNIVERSAL_FORBIDDEN` (lines 8-13 of the validator). -/
def UNIVERSAL_FORBIDDEN : List RePattern :=
  [⟨"TODO:|FIXME:", ["TODO:", "FIXME:"]⟩,
   ⟨"backwards? compatib", ["backward compatib", "backwards compatib"]⟩,
   ⟨"in a real (implementation|app|application|world|scenario)",
    ["in a real implementation", "in a real app", "in a real application",
     "in a real world", "in a real scenario"]⟩,
   ⟨"console\x5c.log", ["console.log"]⟩]

/-- One entry of the `QUALITY_GATES` table. -/
structure QualityCriteria where
  required_patterns : List RePattern
  forbidden_patterns : List RePattern
  min_lines : ℕ

/-- `QUALITY_GATES` (lines 16-37 of the validator), as the lookup
`QUALITY_GATES.get(agent_name)`. -/
def QUALITY_GATES (agent_name : String) : Option QualityCriteria :=
  if agent_name = "backend-database-engineer" then
    some { required_patterns :=
             [⟨"migration|schema|query|database|server|action|api|endpoint|route",
               ["migration", "schema", "query", "database", "server", "action",
                "api", "endpoint", "route"]⟩],
           forbidden_patterns := [],
           min_lines := 5 }
  else if agent_name = "frontend-ui-specialist" then
    some { required_patterns :=
             [⟨"component|jsx?|tsx?|css", ["component", "js", "jsx", "ts", "tsx", "css"]⟩],
           forbidden_patterns := [⟨"alert\x5c(", ["alert("]⟩],
           min_lines := 10 }
  else if agent_name = "code-quality-reviewer" then
    some { required_patterns :=
             [⟨"test|spec|coverage|lint", ["test", "spec", "coverage", "lint"]⟩],
           forbidden_patterns := [⟨"skipped|disabled|ignored", ["skipped", "disabled", "ignored"]⟩],
           min_lines := 3 }
  else if agent_name = "feature-architect-planner" then
    some { required_patterns := [⟨"## |### |\x5c* ", ["## ", "### ", "* "]⟩],
           forbidden_patterns := [⟨"I think|Maybe|Perhaps", ["I think", "Maybe", "Perhaps"]⟩],
           min_lines := 20 }
  else none

/-- Python `str.strip()`: drop leading and trailing whitespace. -/
def pyStrip (s : String) : String :=
  String.mk (((s.toList.dropWhile Char.isWhitespace).reverse.dropWhile
    Char.isWhitespace).reverse)

/-- Python `result_text.split(chr(10))`: split at every newline, keeping
empty pieces, so the count is one more than the number of newlines. -/
def splitNlAux : List Char → List Char → List String
  | [], acc => [String.mk acc.reverse]
  | c :: rest, acc =>
    if c = '\x0a' then String.mk acc.reverse :: splitNlAux rest []
    else splitNlAux rest (c :: acc)

/-- Python `str.split` with separator `chr(10)` on a string. -/
def pySplitNl (s : String) : List String :=
  splitNlAux s.toList []

/-- The `for pattern in required` loop: first required pattern the text does
not match, if any. -/
def firstMissingRequired : List RePattern → String → Option RePattern
  | [], _ => none
  | p :: ps, t => if reSearchCI p t then firstMissingRequired ps t else some p

/-- The `for pattern in forbidden` loop: first forbidden pattern the text
matches, if any. -/
def firstForbiddenHit : List RePattern → String → Option RePattern
  | [], _ => none
  | p :: ps, t => if reSearchCI p t then some p else firstForbiddenHit ps t

/-- `validate_agent_result` (lines 39-65 of the validator). -/
def validate_agent_result (agent_name result_text : String) : Bool × String :=
  if result_text = "" ∨ (pyStrip result_text).length < 10 then
    (false, "Output too short or empty")
  else
    match QUALITY_GATES agent_name with
    | none => (true, "No specific criteria defined")
    | some criteria =>
      -- Check minimum length
      let lines := pySplitNl result_text
      if lines.length < criteria.min_lines then
        (false, "Output too short: " ++ toString lines.length ++ " lines, need " ++
          toString criteria.min_lines)
      else
        -- Check required patterns
        match firstMissingRequired criteria.required_patterns result_text with
        | some p => (false, "Missing required content pattern: " ++ p.src)
        | none =>
          -- Check forbidden patterns (universal + agent-specific)
          match firstForbiddenHit (UNIVERSAL_FORBIDDEN ++ criteria.forbidden_patterns)
              result_text with
          | some p => (false, "Contains forbidden pattern: " ++ p.src)
          | none => (true, "Quality gates passed")

/-- A store whose agent has exactly five recent calls, all with the same
truncated task string. -/
def fiveRepeatStore : MetricsStore :=
  { agents := [("agentX",
      { total_calls := 5,
        recent_calls :=
          List.replicate 5 { timestamp := 0, task := "same task", complexity := 1 },
        avg_complexity := 1 })],
    daily_stats := [],
    last_cleanup := 0 }

/-! ## Helper lemmas -/

theorem dictGet_dictSet_self {α : Type} (d : List (String × α)) (k : String) (v : α) :
    dictGet (dictSet d k v) k = some v := by
  induction d with
  | nil => simp [dictGet, dictSet]
  | cons kv rest ih =>
    obtain ⟨k', v'⟩ := kv
    by_cases h : k' = k
    · simp [dictGet, dictSet, h]
    · simp [dictGet, dictSet, h, ih]

/-- The daily-stats slip: whenever `today` is not yet a key of `daily_stats`,
the freshly initialised `agents_used` is a Python `set`, and the
`set + list` concatenation at line 74 of the source raises `TypeError`. -/
theorem record_core_fresh_day (m : MetricsStore) (now : ℤ) (today agent_name task_description : String)
    (h : dictGet m.daily_stats today = none) :
    record_core m now today agent_name task_description = .error () := by
  unfold record_core
  split
  all_goals simp only [h, Option.isNone_none, if_true, dictGet_dictSet_self,
    Option.getD_some, initDailyStats]

/-! ## Claim theorems -/

/-- C1: calling `record_agent_invocation("agentX", "implement feature")` once
on a store with no agents and no daily stats does NOT return a store with
`total_calls = 1` and `avg_complexity = 3`: the body raises `TypeError`
(`set + list` on the freshly initialised `agents_used`) before reaching the
average-complexity update, for every current instant, day string and
`last_cleanup` value. -/
theorem recordInvocation_empty_store_raises (now lc : ℤ) (today : String) :
    record_core { agents := [], daily_stats := [], last_cleanup := lc } now today
      "agentX" "implement feature" = .error () :=
  record_core_fresh_day _ _ _ _ _ rfl

/-- C2: `record_agent_invocation` does propagate an exception to its caller:
with no metrics file on disk (so the load error is caught and the fresh store
substituted), the daily-stats update raises `TypeError` for every agent name
and task description, and nothing catches it inside the function. -/
theorem recordInvocation_propagates_exception (now : ℤ)
    (today agent_name task_description : String) :
    record_agent_invocation none now today agent_name task_description = .error () := by
  unfold record_agent_invocation load_metrics
  simp only [record_core_fresh_day (fresh_store now) now today agent_name task_description rfl]

set_option maxRecDepth 4000 in
/-- C5: two invocations 25 hours apart.  First conjunct: starting from an
empty store the first call already raises `TypeError`, so no store with
`total_calls = 2` ever exists.  Second conjunct: on a store whose
`daily_stats` already holds both days with list-valued `agents_used` (the
only way the body can run to completion), the two calls produce exactly the
claimed state — `recent_calls` holds only the second record (the first is
outside the 24-hour window) while `total_calls` is 2. -/
theorem recordInvocation_25h_apart (lc : ℤ) :
    record_core { agents := [], daily_stats := [], last_cleanup := lc } 0 "2025-01-01"
      "agentX" "task one" = .error () ∧
    ((record_core
        { agents := [],
          daily_stats := [("2025-01-01", { total_calls := 0, agents_used := .pyList [], parallel_sessions := 0 }),
                          ("2025-01-02", { total_calls := 0, agents_used := .pyList [], parallel_sessions := 0 })],
          last_cleanup := 0 } 0 "2025-01-01" "agentX" "task one").bind
      (fun m1 => record_core m1 90000 "2025-01-02" "agentX" "task two")).map
      (fun m2 => ((agentStatsOf m2 "agentX").recent_calls,
                  (agentStatsOf m2 "agentX").total_calls)) =
    .ok ([{ timestamp := 90000, task := "task two", complexity := 1 }], 2) :=
  ⟨record_core_fresh_day _ _ _ _ _ rfl, by decide⟩

/-- C6: the "combine simple tasks" suggestion is emitted exactly when the
agent's `total_calls` exceeds 10 and its `avg_complexity` is below 2 (both
read with zero defaults when the agent is unknown). -/
theorem suggest_combine_iff (m : MetricsStore) (agent_name : String) :
    "Consider combining simple tasks to reduce overhead" ∈
        suggest_optimizations m agent_name ↔
      (agentStatsOf m agent_name).total_calls > 10 ∧
        (agentStatsOf m agent_name).avg_complexity < 2 := by
  have hne : "Consider combining simple tasks to reduce overhead" ≠
      "Detected repetitive tasks - consider batch processing" := by decide
  unfold suggest_optimizations
  dsimp only
  split_ifs <;> simp_all [List.mem_append]

/-- C3, counterexample: with exactly five recent calls whose last five task
strings have fewer than three distinct values, the repetitive-tasks
suggestion is NOT emitted, because the source guards the check with
`len(recent_calls) > 5`. -/
theorem suggest_repetitive_five_calls_missing :
    (lastFiveTasks (agentStatsOf fiveRepeatStore "agentX")).dedup.length < 3 ∧
    "Detected repetitive tasks - consider batch processing" ∉
      suggest_optimizations fiveRepeatStore "agentX" := by
  decide

/-- C3, amended: when the agent's `recent_calls` holds MORE than five entries
and the last five truncated task strings have fewer than three distinct
values, the repetitive-tasks suggestion is emitted. -/
theorem suggest_repetitive_amended (m : MetricsStore) (agent_name : String)
    (h5 : (agentStatsOf m agent_name).recent_calls.length > 5)
    (hd : (lastFiveTasks (agentStatsOf m agent_name)).dedup.length < 3) :
    "Detected repetitive tasks - consider batch processing" ∈
      suggest_optimizations m agent_name := by
  unfold suggest_optimizations
  dsimp only
  rw [if_pos h5, if_pos hd]
  simp

/-- Witness for the amended C3: six identical recent calls trigger the
suggestion. -/
theorem suggest_repetitive_amended_witness :
    "Detected repetitive tasks - consider batch processing" ∈
      suggest_optimizations
        { agents := [("agentX",
            { total_calls := 6,
              recent_calls :=
                List.replicate 6 { timestamp := 0, task := "same task", complexity := 1 },
              avg_complexity := 1 })],
          daily_stats := [],
          last_cleanup := 0 } "agentX" :=
  suggest_repetitive_amended _ "agentX" (by decide) (by decide)

theorem le_foldl_kwStep (ws : List String) (b : ℕ) : b ≤ ws.foldl kwStep b := by
  induction ws generalizing b with
  | nil => exact le_refl b
  | cons w ws ih =>
    rw [List.foldl_cons]
    refine le_trans ?_ (ih (kwStep b w))
    unfold kwStep
    cases complexity_keywords w <;> simp

theorem kw_le_foldl (w : String) (k : ℕ) (hk : complexity_keywords w = some k) :
    ∀ (ws : List String) (b : ℕ), w ∈ ws → k ≤ ws.foldl kwStep b := by
  intro ws
  induction ws with
  | nil => intro b h; cases h
  | cons x xs ih =>
    intro b hw
    rw [List.foldl_cons]
    rcases List.mem_cons.mp hw with h | h
    · subst h
      refine le_trans ?_ (le_foldl_kwStep xs _)
      unfold kwStep
      rw [hk]
      exact le_max_right _ _
    · exact ih _ h

theorem dictGet_mem {α : Type} (l : List (String × α)) (k : String) (v : α)
    (h : dictGet l k = some v) : (k, v) ∈ l := by
  induction l with
  | nil => exact absurd h (by simp [dictGet])
  | cons kv rest ih =>
    obtain ⟨k', v'⟩ := kv
    by_cases hkk : k' = k
    · subst hkk
      rw [dictGet, if_pos rfl] at h
      injection h with h
      subst h
      exact List.mem_cons_self _ _
    · rw [dictGet, if_neg hkk] at h
      exact List.mem_cons_of_mem _ (ih h)

theorem kw_weight_le_four (w : String) (k : ℕ) (hk : complexity_keywords w = some k) :
    k ≤ 4 := by
  have hmem := dictGet_mem _ _ _ hk
  have hall : ∀ p ∈ complexity_keywords_table, p.2 ≤ 4 := by decide
  exact hall _ hmem

/-- C4: for every task description, `estimate_task_complexity` lies in
`[1, 5]`; and whenever a whitespace-delimited lower-cased token of the text
is a keyword of the table, the result is at least that keyword's weight. -/
theorem estimate_bounds_and_keyword (s : String) :
    (1 ≤ estimate_task_complexity s ∧ estimate_task_complexity s ≤ 5) ∧
    ∀ w k, w ∈ pySplit (pyLower s) → complexity_keywords w = some k →
      k ≤ estimate_task_complexity s := by
  have hbase : 1 ≤ (pySplit (pyLower s)).foldl kwStep 1 := le_foldl_kwStep _ _
  unfold estimate_task_complexity
  dsimp only
  refine ⟨⟨le_min ?_ (by norm_num), min_le_right _ _⟩, ?_⟩
  · split <;> omega
  · intro w k hw hk
    have h1 := kw_le_foldl w k hk (pySplit (pyLower s)) 1 hw
    have h4 := kw_weight_le_four w k hk
    refine le_min ?_ (by omega)
    split <;> omega

/-- Witness for C4: "implement feature" contains the keyword "implement" of
weight 3, and the estimate is at least 3. -/
theorem estimate_bounds_and_keyword_witness :
    3 ≤ estimate_task_complexity "implement feature" :=
  (estimate_bounds_and_keyword "implement feature").2 "implement" 3 (by decide) (by decide)

theorem foldl_kwStep_of_none (ws : List String)
    (h : ∀ w ∈ ws, complexity_keywords w = none) (b : ℕ) :
    ws.foldl kwStep b = b := by
  induction ws with
  | nil => rfl
  | cons x xs ih =>
    rw [List.foldl_cons]
    have hstep : kwStep b x = b := by
      unfold kwStep
      rw [h x (List.mem_cons_self x xs)]
    rw [hstep]
    exact ih (fun w hw => h w (List.mem_cons_of_mem _ hw))

/-- C9: a 250-character task description none of whose tokens is a keyword
gets complexity exactly 2: base 1 plus the length bonus for more than 200
characters. -/
theorem estimate_250_no_keyword (s : String) (hlen : s.length = 250)
    (hkw : ∀ w ∈ pySplit (pyLower s), complexity_keywords w = none) :
    estimate_task_complexity s = 2 := by
  unfold estimate_task_complexity
  dsimp only
  rw [foldl_kwStep_of_none _ hkw, if_pos (by omega : s.length > 200)]
  rfl

set_option maxRecDepth 8000 in
/-- Witness for C9: a concrete 250-character keyword-free string. -/
theorem estimate_250_no_keyword_witness :
    estimate_task_complexity
      "aaaaaaaaaaaaaaaaaaaaaaaaaaaaaaaaaaaaaaaaaaaaaaaaaaaaaaaaaaaaaaaaaaaaaaaaaaaaaaaaaaaaaaaaaaaaaaaaaaaaaaaaaaaaaaaaaaaaaaaaaaaaaaaaaaaaaaaaaaaaaaaaaaaaaaaaaaaaaaaaaaaaaaaaaaaaaaaaaaaaaaaaaaaaaaaaaaaaaaaaaaaaaaaaaaaaaaaaaaaaaaaaaaaaaaaaaaaaaaaaaaaaaaaaaa" = 2 :=
  estimate_250_no_keyword
    "aaaaaaaaaaaaaaaaaaaaaaaaaaaaaaaaaaaaaaaaaaaaaaaaaaaaaaaaaaaaaaaaaaaaaaaaaaaaaaaaaaaaaaaaaaaaaaaaaaaaaaaaaaaaaaaaaaaaaaaaaaaaaaaaaaaaaaaaaaaaaaaaaaaaaaaaaaaaaaaaaaaaaaaaaaaaaaaaaaaaaaaaaaaaaaaaaaaaaaaaaaaaaaaaaaaaaaaaaaaaaaaaaaaaaaaaaaaaaaaaaaaaaaaaaa"
    (by decide) (by decide)

/-- C10: for every agent name, when the result text is empty or its
stripped length is under 10 characters, validation fails with the reason
"Output too short or empty", before any per-agent criteria are consulted. -/
theorem validate_short_output (agent_name result_text : String)
    (h : result_text = "" ∨ (pyStrip result_text).length < 10) :
    validate_agent_result agent_name result_text =
      (false, "Output too short or empty") := by
  unfold validate_agent_result
  rw [if_pos h]

/-- Witness for C10: a five-character result fails for an agent that does
have quality criteria defined. -/
theorem validate_short_output_witness :
    validate_agent_result "frontend-ui-specialist" "short" =
      (false, "Output too short or empty") :=
  validate_short_output "frontend-ui-specialist" "short" (by decide)

theorem decNat_jint (n : ℕ) : decNat (.jint (n : ℤ)) = some n := by
  simp [decNat]

theorem decodeCall_encodeCall (c : CallRecord) :
    decodeCall (encodeCall c) = some c := by
  simp [decodeCall, encodeCall, dictGet, decInt, decStr, decNat_jint]

theorem decodeCallList_map (l : List CallRecord) :
    decodeCallList (l.map encodeCall) = some l := by
  induction l with
  | nil => rfl
  | cons c cs ih => simp [decodeCallList, decodeCall_encodeCall, ih]

theorem decodeAgent_encodeAgent (a : AgentStats) :
    decodeAgent (encodeAgent a) = some a := by
  simp [decodeAgent, encodeAgent, dictGet, decNat_jint, decArr, decQ, decodeCallList_map]

theorem decodeDict_encodeAgents (l : List (String × AgentStats)) :
    decodeDict decodeAgent (l.map (fun kv => (kv.1, encodeAgent kv.2))) = some l := by
  induction l with
  | nil => rfl
  | cons kv rest ih =>
    obtain ⟨k, a⟩ := kv
    simp [decodeDict, decodeAgent_encodeAgent, ih]

theorem decodeStrList_map (xs : List String) :
    decodeStrList (xs.map JValue.str) = some xs := by
  induction xs with
  | nil => rfl
  | cons x rest ih => simp [decodeStrList, decStr, ih]

theorem decodeDaily_encodeDaily (d : DailyStats) (j : JValue)
    (h : encodeDaily d = some j) : decodeDaily j = some d := by
  obtain ⟨t, au, p⟩ := d
  cases au with
  | pySet xs => exact absurd h (by simp [encodeDaily])
  | pyList xs =>
    simp only [encodeDaily, Option.some.injEq] at h
    subst h
    simp [decodeDaily, dictGet, decNat_jint, decArr, decodeStrList_map]

theorem encodeDailyDict_roundtrip (l : List (String × DailyStats))
    (h : ∀ kv ∈ l, ∃ xs, (kv.2).agents_used = .pyList xs) :
    ∃ ds, encodeDailyDict l = some ds ∧ decodeDict decodeDaily ds = some l := by
  induction l with
  | nil => exact ⟨[], rfl, rfl⟩
  | cons kv rest ih =>
    obtain ⟨k, d⟩ := kv
    obtain ⟨xs, hxs⟩ := h (k, d) (List.mem_cons_self _ _)
    have hj : ∃ j, encodeDaily d = some j := by
      obtain ⟨t, au, p⟩ := d
      simp at hxs
      subst hxs
      exact ⟨_, rfl⟩
    obtain ⟨j, hj⟩ := hj
    obtain ⟨ds, hds, hdec⟩ := ih (fun kv hkv => h kv (List.mem_cons_of_mem _ hkv))
    refine ⟨(k, j) :: ds, ?_, ?_⟩
    · simp [encodeDailyDict, hj, hds]
    · simp [decodeDict, decodeDaily_encodeDaily d j hj, hdec]

theorem serializable_spec (m : MetricsStore) (h : serializable m = true) :
    ∀ kv ∈ m.daily_stats, ∃ xs, (kv.2).agents_used = .pyList xs := by
  intro kv hkv
  have hall := List.all_eq_true.mp h kv hkv
  cases hau : kv.2.agents_used with
  | pySet xs => rw [hau] at hall; simp at hall
  | pyList xs => exact ⟨xs, rfl⟩

/-- C8: saving a serializable store and reading the saved document back
field-for-field yields the original store, whatever instant the reload
happens at. -/
theorem store_save_load_roundtrip (m : MetricsStore) (now : ℤ)
    (h : serializable m = true) :
    (encodeStore m).bind (fun j => load_metrics (some j) now) = some m := by
  obtain ⟨ds, hds, hdec⟩ := encodeDailyDict_roundtrip m.daily_stats (serializable_spec m h)
  have henc : encodeStore m =
      some (.obj [("agents", .obj (m.agents.map (fun kv => (kv.1, encodeAgent kv.2)))),
                  ("daily_stats", .obj ds),
                  ("last_cleanup", .jint m.last_cleanup)]) := by
    simp [encodeStore, hds]
  rw [henc]
  simp [load_metrics, decodeStore, dictGet, decodeDict_encodeAgents, hdec, decInt]

/-- Witness for C8: a concrete one-agent, one-day store survives the
save/load round trip. -/
theorem store_save_load_roundtrip_witness :
    (encodeStore
      { agents := [("agentX",
          { total_calls := 1,
            recent_calls := [{ timestamp := 0, task := "t", complexity := 1 }],
            avg_complexity := 1 })],
        daily_stats := [("2025-01-01",
          { total_calls := 1, agents_used := .pyList ["agentX"], parallel_sessions := 0 })],
        last_cleanup := 0 }).bind (fun j => load_metrics (some j) 7) =
    some
      { agents := [("agentX",
          { total_calls := 1,
            recent_calls := [{ timestamp := 0, task := "t", complexity := 1 }],
            avg_complexity := 1 })],
        daily_stats := [("2025-01-01",
          { total_calls := 1, agents_used := .pyList ["agentX"], parallel_sessions := 0 })],
        last_cleanup := 0 } :=
  store_save_load_roundtrip _ 7 (by decide)

/-- C7: when the metrics file is missing, unreadable or malformed, loading
yields the fresh store, whose `agents` and `daily_stats` maps are empty, and
the process exits with status 0 whatever happens afterwards. -/
theorem malformed_store_fresh_and_exit_zero (now : ℤ) (input : Option HookEvent)
    (today : String) :
    load_metrics none now = some (fresh_store now) ∧
    (fresh_store now).agents = [] ∧ (fresh_store now).daily_stats = [] ∧
    main_exit input none now today = 0 := by
  refine ⟨rfl, rfl, rfl, ?_⟩
  unfold main_exit
  split <;> rfl
